import Mathlib

set_option maxRecDepth 8000

deriving instance DecidableEq for Except

/- Verification development for the lab3 TAC compiler core: a shallow
   embedding of ir.h (Operand, Instruction, IRProgram), optimizer.h
   (Optimizer), interpreter.h (Interpreter), semantic.h (SemanticAnalyzer),
   codegen.h (CodeGenerator) and the AST node types of parser.h. -/

namespace Lab3

/-! ### ir.h : enums, Operand, Instruction, IRProgram -/

inductive BinOp where
  | ADD | SUB | MUL | DIV | MOD
  | EQ | NE | LT | GT | LE | GE
  | AND | OR
deriving DecidableEq

inductive UnOp where
  | NEG
  | NOT
deriving DecidableEq

inductive InstrType where
  | BIN_OP | UN_OP | ASSIGN | CONST | LABEL | GOTO | IF_GOTO | CALL | RETURN | PRINT | NOP
deriving DecidableEq

inductive OperandType where
  | VAR | CONST | TEMP
deriving DecidableEq

/-- Operand of ir.h: tagged by type with a name and an integer value.
    The int constructor Operand(v) sets name = to_string(v) and type CONST. -/
structure Operand where
  type : OperandType := OperandType.VAR
  name : String := ""
  value : Int := 0
deriving DecidableEq

def Operand.mkNamed (n : String) (t : OperandType) : Operand :=
  { type := t, name := n }

def Operand.mkConst (v : Int) : Operand :=
  { type := OperandType.CONST, name := toString v, value := v }

def Operand.str (op : Operand) : String := op.name

def Operand.isConst (op : Operand) : Bool := op.type == OperandType.CONST

def Operand.isTemp (op : Operand) : Bool := op.type == OperandType.TEMP

def Operand.isVar (op : Operand) : Bool := op.type == OperandType.VAR

/-- Instruction of ir.h: one record carrying all fields, tagged by type. -/
structure Instruction where
  type : InstrType := InstrType.NOP
  result : Operand := {}
  op1 : Operand := {}
  op2 : Operand := {}
  label : String := ""
  binOp : BinOp := BinOp.ADD
  unOp : UnOp := UnOp.NEG
  args : List Operand := []
  funcName : String := ""
deriving DecidableEq

def Instruction.createBinOp (result : Operand) (op : BinOp) (op1 op2 : Operand) : Instruction :=
  { type := InstrType.BIN_OP, result := result, binOp := op, op1 := op1, op2 := op2 }

def Instruction.createUnOp (result : Operand) (op : UnOp) (operand : Operand) : Instruction :=
  { type := InstrType.UN_OP, result := result, unOp := op, op1 := operand }

def Instruction.createAssign (dst src : Operand) : Instruction :=
  { type := InstrType.ASSIGN, result := dst, op1 := src }

def Instruction.createLabel (lbl : String) : Instruction :=
  { type := InstrType.LABEL, label := lbl }

def Instruction.createGoto (lbl : String) : Instruction :=
  { type := InstrType.GOTO, label := lbl }

def Instruction.createIfGoto (cond : Operand) (lbl : String) : Instruction :=
  { type := InstrType.IF_GOTO, op1 := cond, label := lbl }

def Instruction.createCall (result : Operand) (func : String) (arguments : List Operand) : Instruction :=
  { type := InstrType.CALL, result := result, funcName := func, args := arguments }

def Instruction.createReturn (value : Operand) : Instruction :=
  { type := InstrType.RETURN, op1 := value }

def Instruction.createPrint (value : Operand) : Instruction :=
  { type := InstrType.PRINT, op1 := value }

/-- The unordered string-to-int maps of the source (variableTypes, the
    interpreter variable store) are embedded as association lists with
    insert-or-replace update; only membership and lookup are observed. -/
def lookupMap : List (String × Int) → String → Option Int
  | [], _ => none
  | (a, v) :: rest, k => if a = k then some v else lookupMap rest k

def insertMap : List (String × Int) → String → Int → List (String × Int)
  | [], k, v => [(k, v)]
  | (a, w) :: rest, k, v =>
      if a = k then (a, v) :: rest else (a, w) :: insertMap rest k v

/-- IRProgram of ir.h: instruction sequence plus variable-type table
    (0 = int, 1 = bool) and the symbol-table map. -/
structure IRProgram where
  instructions : List Instruction := []
  variableTypes : List (String × Int) := []
  symbolTable : List (String × Int) := []
deriving DecidableEq

/-! ### optimizer.h : constant folding and dead-code elimination -/

/-- Inner switch of Optimizer::foldConstants for a BIN_OP with two constant
    operands. C++ int division truncates toward zero, hence Int.tdiv/Int.tmod. -/
def foldBinValue (op : BinOp) (val1 val2 : Int) : Int :=
  match op with
  | BinOp.ADD => val1 + val2
  | BinOp.SUB => val1 - val2
  | BinOp.MUL => val1 * val2
  | BinOp.DIV => if val2 ≠ 0 then Int.tdiv val1 val2 else 0
  | BinOp.MOD => if val2 ≠ 0 then Int.tmod val1 val2 else 0
  | BinOp.EQ => if val1 = val2 then 1 else 0
  | BinOp.NE => if val1 ≠ val2 then 1 else 0
  | BinOp.LT => if val1 < val2 then 1 else 0
  | BinOp.GT => if val1 > val2 then 1 else 0
  | BinOp.LE => if val1 ≤ val2 then 1 else 0
  | BinOp.GE => if val1 ≥ val2 then 1 else 0
  | BinOp.AND => if val1 ≠ 0 ∧ val2 ≠ 0 then 1 else 0
  | BinOp.OR => if val1 ≠ 0 ∨ val2 ≠ 0 then 1 else 0

/-- Branch of Optimizer::foldConstants for a UN_OP with a constant operand. -/
def foldUnValue (op : UnOp) (val : Int) : Int :=
  match op with
  | UnOp.NEG => -val
  | UnOp.NOT => if val ≠ 0 then 0 else 1

/-- Per-instruction action of Optimizer::foldConstants: a BIN_OP/UN_OP whose
    operands are all constants is rewritten in place into an ASSIGN whose op1
    is the folded constant; every other instruction is left unchanged. -/
def foldInstr (instr : Instruction) : Instruction :=
  if instr.type = InstrType.BIN_OP then
    if instr.op1.isConst && instr.op2.isConst then
      { instr with type := InstrType.ASSIGN,
                   op1 := Operand.mkConst (foldBinValue instr.binOp instr.op1.value instr.op2.value) }
    else instr
  else if instr.type = InstrType.UN_OP then
    if instr.op1.isConst then
      { instr with type := InstrType.ASSIGN,
                   op1 := Operand.mkConst (foldUnValue instr.unOp instr.op1.value) }
    else instr
  else instr

def foldConstants (input : IRProgram) : IRProgram :=
  { input with instructions := input.instructions.map foldInstr }

/-- Destinations recorded in assignedVars by Optimizer::eliminateDeadCode. -/
def assignsOf (instr : Instruction) : List String :=
  if instr.type = InstrType.ASSIGN ∨ instr.type = InstrType.BIN_OP ∨
     instr.type = InstrType.UN_OP then
    [instr.result.str]
  else []

/-- Source operands recorded in usedVars by Optimizer::eliminateDeadCode. -/
def usesOf (instr : Instruction) : List String :=
  match instr.type with
  | InstrType.PRINT => [instr.op1.str]
  | InstrType.RETURN => [instr.op1.str]
  | InstrType.IF_GOTO => [instr.op1.str]
  | InstrType.BIN_OP => [instr.op1.str, instr.op2.str]
  | InstrType.UN_OP => [instr.op1.str]
  | InstrType.ASSIGN => [instr.op1.str]
  | InstrType.CALL => instr.args.map Operand.str
  | _ => []

def memStr : List String → String → Bool
  | [], _ => false
  | y :: ys, x => if y = x then true else memStr ys x

def usedVars (instrs : List Instruction) : List String :=
  (instrs.map usesOf).flatten

def assignedVars (instrs : List Instruction) : List String :=
  (instrs.map assignsOf).flatten

/-- Deadness test of Optimizer::eliminateDeadCode: an ASSIGN/BIN_OP/UN_OP whose
    destination is assigned but never used. -/
def isDead (used assigned : List String) (instr : Instruction) : Bool :=
  (instr.type == InstrType.ASSIGN || instr.type == InstrType.BIN_OP ||
   instr.type == InstrType.UN_OP)
  && memStr assigned instr.result.str
  && !(memStr used instr.result.str)

def eliminateDeadCode (input : IRProgram) : IRProgram :=
  let used := usedVars input.instructions
  let assigned := assignedVars input.instructions
  { input with instructions := input.instructions.filter (fun i => !(isDead used assigned i)) }

/-- Optimizer::optimize: constant folding, then dead-code elimination. -/
def optimize (input : IRProgram) : IRProgram :=
  eliminateDeadCode (foldConstants input)

/-! ### interpreter.h : the TAC interpreter -/

structure InterpState where
  vars : List (String × Int) := []
  output : List String := []
  pc : Int := 0
deriving DecidableEq

/-- Interpreter::getValue: a constant reads as its literal value; a VAR
    operand reads from the store (runtime error when absent); any other
    operand (a TEMP) falls through to return 0. -/
def getValue (vars : List (String × Int)) (op : Operand) : Except String Int :=
  if op.isConst then Except.ok op.value
  else if op.isVar then
    match lookupMap vars op.str with
    | some v => Except.ok v
    | none => Except.error ("Undefined variable: " ++ op.str)
  else Except.ok 0

/-- Interpreter::setValue: stores only when the destination is a VAR operand;
    any other destination (a TEMP) is silently dropped. -/
def setValue (vars : List (String × Int)) (op : Operand) (value : Int) : List (String × Int) :=
  if op.isVar then insertMap vars op.str value else vars

/-- Inner switch of Interpreter::executeBinOp, including the runtime
    division/modulo-by-zero faults. -/
def binOpResult (op : BinOp) (left right : Int) : Except String Int :=
  match op with
  | BinOp.ADD => Except.ok (left + right)
  | BinOp.SUB => Except.ok (left - right)
  | BinOp.MUL => Except.ok (left * right)
  | BinOp.DIV => if right = 0 then Except.error "Division by zero" else Except.ok (Int.tdiv left right)
  | BinOp.MOD => if right = 0 then Except.error "Modulo by zero" else Except.ok (Int.tmod left right)
  | BinOp.EQ => Except.ok (if left = right then 1 else 0)
  | BinOp.NE => Except.ok (if left ≠ right then 1 else 0)
  | BinOp.LT => Except.ok (if left < right then 1 else 0)
  | BinOp.GT => Except.ok (if left > right then 1 else 0)
  | BinOp.LE => Except.ok (if left ≤ right then 1 else 0)
  | BinOp.GE => Except.ok (if left ≥ right then 1 else 0)
  | BinOp.AND => Except.ok (if left ≠ 0 ∧ right ≠ 0 then 1 else 0)
  | BinOp.OR => Except.ok (if left ≠ 0 ∨ right ≠ 0 then 1 else 0)

/-- Value computed by Interpreter::executeBinOp before the setValue call. -/
def execBinOpValue (vars : List (String × Int)) (instr : Instruction) : Except String Int :=
  match getValue vars instr.op1 with
  | Except.error e => Except.error e
  | Except.ok left =>
    match getValue vars instr.op2 with
    | Except.error e => Except.error e
    | Except.ok right => binOpResult instr.binOp left right

def executeBinOp (vars : List (String × Int)) (instr : Instruction) : Except String (List (String × Int)) :=
  match execBinOpValue vars instr with
  | Except.error e => Except.error e
  | Except.ok result => Except.ok (setValue vars instr.result result)

/-- Branch logic of Interpreter::executeUnOp. -/
def unOpResult (op : UnOp) (operand : Int) : Int :=
  match op with
  | UnOp.NEG => -operand
  | UnOp.NOT => if operand ≠ 0 then 0 else 1

def execUnOpValue (vars : List (String × Int)) (instr : Instruction) : Except String Int :=
  match getValue vars instr.op1 with
  | Except.error e => Except.error e
  | Except.ok operand => Except.ok (unOpResult instr.unOp operand)

def executeUnOp (vars : List (String × Int)) (instr : Instruction) : Except String (List (String × Int)) :=
  match execUnOpValue vars instr with
  | Except.error e => Except.error e
  | Except.ok result => Except.ok (setValue vars instr.result result)

def executeAssign (vars : List (String × Int)) (instr : Instruction) : Except String (List (String × Int)) :=
  match getValue vars instr.op1 with
  | Except.error e => Except.error e
  | Except.ok value => Except.ok (setValue vars instr.result value)

def findLabelGo (label : String) : List Instruction → Nat → Except String Nat
  | [], _ => Except.error ("Label not found: " ++ label)
  | i :: rest, idx =>
      if i.type = InstrType.LABEL ∧ i.label = label then Except.ok idx
      else findLabelGo label rest (idx + 1)

/-- Interpreter::findLabel: linear scan for the first matching LABEL
    instruction; a miss is the runtime error the execute loop turns into
    failure. -/
def findLabel (program : IRProgram) (label : String) : Except String Nat :=
  findLabelGo label program.instructions 0

def instrAt (program : IRProgram) (i : Int) : Option Instruction :=
  if i < 0 then none else program.instructions.get? i.toNat

/-- Result of one call of Interpreter::execute: done is the true return
    (running past the end or an explicit RETURN), fail is the caught runtime
    exception returning false, fuelOut means the fuel bound was hit (the C++
    loop would still be running). -/
inductive RunResult where
  | done (st : InterpState)
  | fail (msg : String) (st : InterpState)
  | fuelOut (st : InterpState)
deriving DecidableEq

/-- The while loop of Interpreter::execute; one fuel unit per iteration.
    The program counter is post-incremented, so a jump sets pc one before
    the label index. -/
def run (program : IRProgram) : Nat → InterpState → RunResult
  | 0, st => RunResult.fuelOut st
  | fuel + 1, st =>
    if st.pc < (program.instructions.length : Int) then
      match instrAt program st.pc with
      | none => RunResult.fail "negative program counter" st
      | some instr =>
        match instr.type with
        | InstrType.BIN_OP =>
          match executeBinOp st.vars instr with
          | Except.ok vars => run program fuel { st with vars := vars, pc := st.pc + 1 }
          | Except.error msg => RunResult.fail msg st
        | InstrType.UN_OP =>
          match executeUnOp st.vars instr with
          | Except.ok vars => run program fuel { st with vars := vars, pc := st.pc + 1 }
          | Except.error msg => RunResult.fail msg st
        | InstrType.ASSIGN =>
          match executeAssign st.vars instr with
          | Except.ok vars => run program fuel { st with vars := vars, pc := st.pc + 1 }
          | Except.error msg => RunResult.fail msg st
        | InstrType.LABEL => run program fuel { st with pc := st.pc + 1 }
        | InstrType.CONST => run program fuel { st with pc := st.pc + 1 }
        | InstrType.GOTO =>
          match findLabel program instr.label with
          | Except.ok idx => run program fuel { st with pc := ((idx : Int) - 1) + 1 }
          | Except.error msg => RunResult.fail msg st
        | InstrType.IF_GOTO =>
          match getValue st.vars instr.op1 with
          | Except.error msg => RunResult.fail msg st
          | Except.ok condValue =>
            if condValue = 0 then
              match findLabel program instr.label with
              | Except.ok idx => run program fuel { st with pc := ((idx : Int) - 1) + 1 }
              | Except.error msg => RunResult.fail msg st
            else run program fuel { st with pc := st.pc + 1 }
        | InstrType.PRINT =>
          match getValue st.vars instr.op1 with
          | Except.ok value =>
              run program fuel { st with output := st.output ++ [toString value], pc := st.pc + 1 }
          | Except.error msg => RunResult.fail msg st
        | InstrType.RETURN => RunResult.done st
        | InstrType.CALL =>
          if instr.funcName = "print" ∧ instr.args ≠ [] then
            match instr.args with
            | [] => run program fuel { st with pc := st.pc + 1 }
            | arg :: _ =>
              match getValue st.vars arg with
              | Except.ok value =>
                  run program fuel { st with output := st.output ++ [toString value], pc := st.pc + 1 }
              | Except.error msg => RunResult.fail msg st
          else run program fuel { st with pc := st.pc + 1 }
        | InstrType.NOP => run program fuel { st with pc := st.pc + 1 }
    else RunResult.done st

/-- Interpreter::execute: clears the member state (variable store, output
    log, program counter), zero-initializes every name of the variable-type
    table, then runs the loop. The incoming member state is the state left
    over by any previous call. -/
def execute (_memberState : InterpState) (program : IRProgram) (fuel : Nat) : RunResult :=
  let cleared : InterpState := { vars := [], output := [], pc := 0 }
  let initialized : InterpState :=
    { cleared with
      vars := program.variableTypes.foldl (fun m p => insertMap m p.1 0) cleared.vars }
  run program fuel initialized

/-- Success projection of a finished execute call: the output log when
    execute returned true, none on failure or exhausted fuel. -/
def successOutput : RunResult → Option (List String)
  | RunResult.done st => some st.output
  | RunResult.fail _ _ => none
  | RunResult.fuelOut _ => none

/-! ### parser.h : the AST node hierarchy consumed by the core -/

/-- The variant int-or-bool payload of ConstExpr; the int constructor tags
    dataType "int", the bool constructor tags dataType "bool". -/
inductive ConstVal where
  | intV (v : Int)
  | boolV (b : Bool)
deriving DecidableEq

inductive Expression where
  | binE (op : BinOp) (left right : Expression)
  | unE (op : UnOp) (operand : Expression)
  | varE (name : String)
  | constE (value : ConstVal)
  | callE (funcName : String) (args : List Expression)

/-- Statement nodes; the nullable child pointers that the source actually
    leaves null (declaration initializer, return value, for-loop parts) are
    Option fields. -/
inductive Statement where
  | declS (varName dataType : String) (line : Int) (initializer : Option Expression)
  | assignS (varName : String) (value : Expression)
  | ifS (condition : Expression) (thenBranch elseBranch : List Statement)
  | whileS (condition : Expression) (body : List Statement)
  | forS (finit : Option Statement) (condition update : Option Expression) (body : List Statement)
  | blockS (statements : List Statement)
  | returnS (value : Option Expression)
  | printS (value : Expression)

structure Program where
  statements : List Statement := []

/-! ### semantic.h : SemanticAnalyzer -/

structure Symbol where
  name : String := ""
  type : String := ""
  definedLine : Int := 0
  initialized : Bool := false
deriving DecidableEq

structure SemState where
  symbolTable : List (String × Symbol) := []
  errors : List String := []
  warnings : List String := []
deriving DecidableEq

def lookupSym : List (String × Symbol) → String → Option Symbol
  | [], _ => none
  | (a, s) :: rest, k => if a = k then some s else lookupSym rest k

def insertSym : List (String × Symbol) → String → Symbol → List (String × Symbol)
  | [], k, s => [(k, s)]
  | (a, t) :: rest, k, s =>
      if a = k then (a, s) :: rest else (a, t) :: insertSym rest k s

/-- In-place update symbolTable[k].initialized = true of visitAssign. -/
def setSymInitialized : List (String × Symbol) → String → List (String × Symbol)
  | [], _ => []
  | (a, s) :: rest, k =>
      if a = k then (a, { s with initialized := true }) :: rest
      else (a, s) :: setSymInitialized rest k

def addError (st : SemState) (msg : String) : SemState :=
  { st with errors := st.errors ++ [msg] }

def addWarning (st : SemState) (msg : String) : SemState :=
  { st with warnings := st.warnings ++ [msg] }

def constDataType : ConstVal → String
  | ConstVal.intV _ => "int"
  | ConstVal.boolV _ => "bool"

/-- SemanticAnalyzer::visitExpression and its helpers; returns the inferred
    type string and the state with any accumulated diagnostics. CallExpr
    arguments are not visited by the source. -/
def visitExpression : Expression → SemState → String × SemState
  | Expression.binE op l r, st =>
    let p1 := visitExpression l st
    let p2 := visitExpression r p1.2
    let leftType := p1.1
    let rightType := p2.1
    if op = BinOp.EQ ∨ op = BinOp.NE ∨ op = BinOp.LT ∨ op = BinOp.GT ∨
       op = BinOp.LE ∨ op = BinOp.GE then
      ("bool", p2.2)
    else if op = BinOp.AND ∨ op = BinOp.OR then
      let st3 := if leftType ≠ "bool" then
          addWarning p2.2 ("Logical operator expects boolean, got " ++ leftType)
        else p2.2
      let st4 := if rightType ≠ "bool" then
          addWarning st3 ("Logical operator expects boolean, got " ++ rightType)
        else st3
      ("bool", st4)
    else
      let st3 := if leftType ≠ rightType then
          addWarning p2.2 "Type mismatch in binary operation"
        else p2.2
      (leftType, st3)
  | Expression.unE op e, st =>
    let p1 := visitExpression e st
    match op with
    | UnOp.NEG =>
      let st2 := if p1.1 ≠ "int" then
          addWarning p1.2 ("Unary minus expects int, got " ++ p1.1)
        else p1.2
      ("int", st2)
    | UnOp.NOT =>
      let st2 := if p1.1 ≠ "bool" then
          addWarning p1.2 ("Logical not expects bool, got " ++ p1.1)
        else p1.2
      ("bool", st2)
  | Expression.varE name, st =>
    match lookupSym st.symbolTable name with
    | none => ("int", addError st ("Undefined variable \x27" ++ name ++ "\x27"))
    | some sym =>
      let st1 := if !sym.initialized then
          addWarning st ("Variable \x27" ++ name ++ "\x27 may be uninitialized")
        else st
      (sym.type, st1)
  | Expression.constE v, st => (constDataType v, st)
  | Expression.callE _ _, st => ("int", st)

mutual

/-- SemanticAnalyzer::visitStatement with its per-variant helpers inlined. -/
def visitStatement : Statement → SemState → SemState
  | Statement.declS varName dataType line initializer, st =>
    match lookupSym st.symbolTable varName with
    | some _ => addError st ("Variable \x27" ++ varName ++ "\x27 already defined")
    | none =>
      let sym : Symbol :=
        { name := varName, type := dataType, definedLine := line,
          initialized := initializer.isSome }
      let st1 :=
        match initializer with
        | some e =>
          let p := visitExpression e st
          if p.1 ≠ dataType then
            addWarning p.2 ("Type mismatch in initialization of \x27" ++ varName ++
              "\x27: expected " ++ dataType ++ ", got " ++ p.1)
          else p.2
        | none => st
      { st1 with symbolTable := insertSym st1.symbolTable varName sym }
  | Statement.assignS varName value, st =>
    if (lookupSym st.symbolTable varName).isNone then
      addError st ("Variable \x27" ++ varName ++ "\x27 is not defined")
    else
      let p := visitExpression value st
      let varType :=
        match lookupSym p.2.symbolTable varName with
        | some sym => sym.type
        | none => ""
      let st2 := if p.1 ≠ varType then
          addWarning p.2 ("Type mismatch in assignment to \x27" ++ varName ++
            "\x27: expected " ++ varType ++ ", got " ++ p.1)
        else p.2
      { st2 with symbolTable := setSymInitialized st2.symbolTable varName }
  | Statement.ifS condition thenBranch elseBranch, st =>
    let p := visitExpression condition st
    let st1 := if p.1 ≠ "bool" then
        addWarning p.2 ("If condition should be boolean, got " ++ p.1)
      else p.2
    visitStatements elseBranch (visitStatements thenBranch st1)
  | Statement.whileS condition body, st =>
    let p := visitExpression condition st
    let st1 := if p.1 ≠ "bool" then
        addWarning p.2 ("While condition should be boolean, got " ++ p.1)
      else p.2
    visitStatements body st1
  | Statement.forS finit condition update body, st =>
    let st1 :=
      match finit with
      | some s => visitStatement s st
      | none => st
    let st2 :=
      match condition with
      | some c =>
        let p := visitExpression c st1
        if p.1 ≠ "bool" then
          addWarning p.2 ("For condition should be boolean, got " ++ p.1)
        else p.2
      | none => st1
    let st3 :=
      match update with
      | some u => (visitExpression u st2).2
      | none => st2
    visitStatements body st3
  | Statement.blockS statements, st => visitStatements statements st
  | Statement.returnS value, st =>
    match value with
    | some e => (visitExpression e st).2
    | none => st
  | Statement.printS value, st => (visitExpression value st).2

/-- The statement loops of SemanticAnalyzer: every sibling is visited, with
    the state threaded through (error accumulation, no early abort). -/
def visitStatements : List Statement → SemState → SemState
  | [], st => st
  | s :: rest, st => visitStatements rest (visitStatement s st)

end

/-- SemanticAnalyzer::analyze: a null program is rejected at once with the
    member state untouched; otherwise every top-level statement is visited
    and acceptance is emptiness of the accumulated error list. -/
def analyze (st : SemState) (program : Option Program) : Bool × SemState :=
  match program with
  | none => (false, st)
  | some p =>
    let st1 := visitStatements p.statements st
    (st1.errors.isEmpty, st1)

/-! ### codegen.h : CodeGenerator -/

structure CGState where
  ir : IRProgram := {}
  tempCounter : Nat := 0
  labelCounter : Nat := 0
  variableTypes : List (String × Int) := []
deriving DecidableEq

def genTemp (s : CGState) : String × CGState :=
  ("t" ++ toString s.tempCounter, { s with tempCounter := s.tempCounter + 1 })

def genLabel (s : CGState) : String × CGState :=
  ("L" ++ toString s.labelCounter, { s with labelCounter := s.labelCounter + 1 })

def emit (s : CGState) (instr : Instruction) : CGState :=
  { s with ir := { s.ir with instructions := s.ir.instructions ++ [instr] } }

/-- Registration of a declared variable in both type tables, shared by the
    declaration sweep of generate and by genDecl. -/
def registerDecl (s : CGState) (varName dataType : String) : CGState :=
  let typeCode : Int := if dataType = "int" then 0 else 1
  { s with
    ir := { s.ir with variableTypes := insertMap s.ir.variableTypes varName typeCode },
    variableTypes := insertMap s.variableTypes varName typeCode }

mutual

/-- CodeGenerator::genExpression: constants and variables lower without
    emission; binary/unary/call expressions lower operands post-order, emit
    one instruction into a fresh temporary and return that temporary. -/
def genExpression : Expression → CGState → Operand × CGState
  | Expression.binE op l r, s =>
    let pl := genExpression l s
    let pr := genExpression r pl.2
    let pt := genTemp pr.2
    let dst := Operand.mkNamed pt.1 OperandType.TEMP
    (dst, emit pt.2 (Instruction.createBinOp dst op pl.1 pr.1))
  | Expression.unE op e, s =>
    let pe := genExpression e s
    let pt := genTemp pe.2
    let dst := Operand.mkNamed pt.1 OperandType.TEMP
    (dst, emit pt.2 (Instruction.createUnOp dst op pe.1))
  | Expression.varE name, s => (Operand.mkNamed name OperandType.VAR, s)
  | Expression.constE v, s =>
    match v with
    | ConstVal.intV i => (Operand.mkConst i, s)
    | ConstVal.boolV b => (Operand.mkConst (if b then 1 else 0), s)
  | Expression.callE funcName args, s =>
    let pa := genArgs args s
    let pt := genTemp pa.2
    let dst := Operand.mkNamed pt.1 OperandType.TEMP
    (dst, emit pt.2 (Instruction.createCall dst funcName pa.1))

def genArgs : List Expression → CGState → List Operand × CGState
  | [], s => ([], s)
  | e :: es, s =>
    let p := genExpression e s
    let ps := genArgs es p.2
    (p.1 :: ps.1, ps.2)

end

mutual

/-- CodeGenerator::genStatement with the per-variant helpers inlined. -/
def genStatement : Statement → CGState → CGState
  | Statement.declS varName dataType _ initializer, s =>
    let s1 := registerDecl s varName dataType
    match initializer with
    | some e =>
      let p := genExpression e s1
      emit p.2 (Instruction.createAssign (Operand.mkNamed varName OperandType.VAR) p.1)
    | none => s1
  | Statement.assignS varName value, s =>
    let p := genExpression value s
    emit p.2 (Instruction.createAssign (Operand.mkNamed varName OperandType.VAR) p.1)
  | Statement.ifS condition thenBranch elseBranch, s =>
    let pc := genExpression condition s
    let pe := genLabel pc.2
    let pf := genLabel pe.2
    let s4 := emit pf.2 (Instruction.createIfGoto pc.1 pe.1)
    let s5 := genStatements thenBranch s4
    if !elseBranch.isEmpty then
      let s6 := emit s5 (Instruction.createGoto pf.1)
      let s7 := emit s6 (Instruction.createLabel pe.1)
      let s8 := genStatements elseBranch s7
      emit s8 (Instruction.createLabel pf.1)
    else
      emit s5 (Instruction.createLabel pe.1)
  | Statement.whileS condition body, s =>
    let pl := genLabel s
    let pe := genLabel pl.2
    let s3 := emit pe.2 (Instruction.createLabel pl.1)
    let pc := genExpression condition s3
    let s5 := emit pc.2 (Instruction.createIfGoto pc.1 pe.1)
    let s6 := genStatements body s5
    emit (emit s6 (Instruction.createGoto pl.1)) (Instruction.createLabel pe.1)
  | Statement.forS finit condition update body, s =>
    let s1 :=
      match finit with
      | some st => genStatement st s
      | none => s
    let pl := genLabel s1
    let pe := genLabel pl.2
    let s4 := emit pe.2 (Instruction.createLabel pl.1)
    let s5 :=
      match condition with
      | some c =>
        let pc := genExpression c s4
        emit pc.2 (Instruction.createIfGoto pc.1 pe.1)
      | none => s4
    let s6 := genStatements body s5
    let s7 :=
      match update with
      | some u => (genExpression u s6).2
      | none => s6
    emit (emit s7 (Instruction.createGoto pl.1)) (Instruction.createLabel pe.1)
  | Statement.blockS statements, s => genStatements statements s
  | Statement.returnS value, s =>
    match value with
    | some e =>
      let p := genExpression e s
      emit p.2 (Instruction.createReturn p.1)
    | none => emit s (Instruction.createReturn (Operand.mkConst 0))
  | Statement.printS value, s =>
    let p := genExpression value s
    emit p.2 (Instruction.createPrint p.1)

def genStatements : List Statement → CGState → CGState
  | [], s => s
  | st :: rest, s => genStatements rest (genStatement st s)

end

/-- CodeGenerator::generate: a null program yields the empty IR; otherwise a
    first sweep registers the top-level declarations in the variable-type
    table, then the full statement walk emits instructions. -/
def generate (program : Option Program) : IRProgram :=
  match program with
  | none => ({} : CGState).ir
  | some p =>
    let s1 := p.statements.foldl
      (fun s stmt =>
        match stmt with
        | Statement.declS varName dataType _ _ => registerDecl s varName dataType
        | _ => s)
      ({} : CGState)
    (genStatements p.statements s1).ir

/-! ### Helper lemmas shared by the claim theorems -/

theorem getValue_const (vars : List (String × Int)) (op : Operand)
    (h : op.type = OperandType.CONST) : getValue vars op = Except.ok op.value := by
  simp [getValue, Operand.isConst, h]

theorem memStr_eq_true_iff (xs : List String) (x : String) :
    memStr xs x = true ↔ x ∈ xs := by
  induction xs with
  | nil => simp [memStr]
  | cons y ys ih =>
    simp only [memStr]
    by_cases h : y = x
    · subst h; simp
    · simp [h, ih, Ne.symm h]

theorem memStr_usedVars_of_mem (instrs : List Instruction) (j : Instruction) (x : String)
    (hj : j ∈ instrs) (hx : x ∈ usesOf j) :
    memStr (usedVars instrs) x = true := by
  rw [memStr_eq_true_iff]
  simp only [usedVars, List.mem_flatten]
  exact ⟨usesOf j, List.mem_map_of_mem usesOf hj, hx⟩

/-- Instructions that are not an ASSIGN, BIN_OP or UN_OP: exactly the ones the
    optimizer passes may not rewrite or remove. -/
def notABU (i : Instruction) : Bool :=
  !(i.type == InstrType.ASSIGN || i.type == InstrType.BIN_OP || i.type == InstrType.UN_OP)

theorem notABU_foldInstr (i : Instruction) :
    notABU (foldInstr i) = notABU i ∧ (notABU i = true → foldInstr i = i) := by
  constructor
  · unfold foldInstr
    split_ifs <;> simp_all [notABU]
  · intro h
    have h1 : ¬ i.type = InstrType.BIN_OP := by
      intro hh; simp [notABU, hh] at h
    have h2 : ¬ i.type = InstrType.UN_OP := by
      intro hh; simp [notABU, hh] at h
    simp [foldInstr, h1, h2]

theorem notABU_not_isDead (used assigned : List String) (i : Instruction)
    (h : notABU i = true) : isDead used assigned i = false := by
  have h1 : (¬ i.type = InstrType.ASSIGN ∧ ¬ i.type = InstrType.BIN_OP) ∧
      ¬ i.type = InstrType.UN_OP := by
    simpa [notABU] using h
  simp [isDead, h1.1.1, h1.1.2, h1.2]

theorem filter_notABU_map_foldInstr (l : List Instruction) :
    (l.map foldInstr).filter notABU = l.filter notABU := by
  induction l with
  | nil => rfl
  | cons i rest ih =>
    have h := notABU_foldInstr i
    by_cases hn : notABU i = true
    · simp [List.filter_cons, h.1, hn, h.2 hn, ih]
    · have hn2 : notABU i = false := by simpa using hn
      simp [List.filter_cons, h.1, hn2, ih]

theorem filter_notABU_filter_notDead (used assigned : List String) (l : List Instruction) :
    (l.filter (fun i => !(isDead used assigned i))).filter notABU = l.filter notABU := by
  induction l with
  | nil => rfl
  | cons i rest ih =>
    by_cases hn : notABU i = true
    · have hd := notABU_not_isDead used assigned i hn
      simp [List.filter_cons, hd, hn, ih]
    · have hn2 : notABU i = false := by simpa using hn
      by_cases hdv : isDead used assigned i = true
      · simp [List.filter_cons, hdv, hn2, ih]
      · have hdv2 : isDead used assigned i = false := by simpa using hdv
        simp [List.filter_cons, hdv2, hn2, ih]

/-! ### Claim C1 -/

/-- TAC program t0 = 1 + 2; print(t0) with t0 a Temporary operand. -/
def tempBugProgram : IRProgram :=
  { instructions := [
      Instruction.createBinOp (Operand.mkNamed "t0" OperandType.TEMP) BinOp.ADD
        (Operand.mkConst 1) (Operand.mkConst 2),
      Instruction.createPrint (Operand.mkNamed "t0" OperandType.TEMP) ] }

/-- C1: the claim (and spec section 4.4) says a Temporary operand reads its
    current store value with a fatal runtime error when the name was never
    stored, and that the computed result of a BinaryOp is written into the
    destination slot so a later read returns it. The code disagrees:
    Interpreter::getValue returns 0 for any Temporary without error, and
    Interpreter::setValue silently drops Temporary destinations, so
    t0 = 1 + 2; print(t0) succeeds and prints 0 instead of 3. -/
theorem C1_code_behavior :
    getValue [] (Operand.mkNamed "t0" OperandType.TEMP) = Except.ok 0
    ∧ setValue [] (Operand.mkNamed "t0" OperandType.TEMP) 3 = []
    ∧ execute {} tempBugProgram 10 =
        RunResult.done { vars := [], output := ["0"], pc := 2 } := by
  refine ⟨rfl, rfl, ?_⟩
  decide

/-! ### Claim C2 -/

/-- AST of the source program int a = 2; int b = 3; print(a + b). -/
def astA : Program :=
  { statements := [
      Statement.declS "a" "int" 1 (some (Expression.constE (ConstVal.intV 2))),
      Statement.declS "b" "int" 2 (some (Expression.constE (ConstVal.intV 3))),
      Statement.printS (Expression.binE BinOp.ADD (Expression.varE "a") (Expression.varE "b")) ] }

def countBinAdd (p : IRProgram) : Nat :=
  (p.instructions.filter (fun i => i.type == InstrType.BIN_OP && i.binOp == BinOp.ADD)).length

/-- C2 counterexample: for scenario A the optimized program contains no
    Assign of the constant 5 (the ADD operands are variables, which
    foldConstants never folds), and execution of the optimized program does
    not produce the output list ["5"], refuting the claim as stated. -/
theorem C2_counterexample :
    ¬ ((optimize (generate (some astA))).instructions.any
          (fun i => i.type == InstrType.ASSIGN && i.op1.isConst && i.op1.value == 5) = true
       ∧ successOutput (execute {} (optimize (generate (some astA))) 20) = some ["5"]) := by
  decide

/-- C2 (amended): the TAC generated for int a = 2; int b = 3; print(a + b)
    contains exactly one BinaryOp(ADD); optimize leaves the program unchanged
    (the ADD operands are Variables, not Constants, so constant folding does
    not apply and nothing is dead); executing the optimized program succeeds
    with output ["0"], because the interpreter never stores the Temporary
    holding the sum (the C1 defect) and reads it back as 0. -/
theorem C2_amended :
    countBinAdd (generate (some astA)) = 1
    ∧ optimize (generate (some astA)) = generate (some astA)
    ∧ successOutput (execute {} (optimize (generate (some astA))) 20) = some ["0"] := by
  refine ⟨?_, ?_, ?_⟩ <;> decide

/-! ### Claim C3 -/

/-- C3: for a BinaryOp whose two operands are Constants and which is not a
    DIV/MOD with zero divisor, and for any UnaryOp with a Constant operand,
    the value the interpreter computes for the unfolded instruction equals
    the constant that foldConstants assigns to the destination. DIV/MOD with
    a constant zero divisor must be excluded: there folding assigns 0 while
    the interpreter raises a fatal error (see the counterexample). -/
theorem C3_theorem (instr : Instruction) (vars : List (String × Int)) :
    (instr.type = InstrType.BIN_OP → instr.op1.type = OperandType.CONST →
      instr.op2.type = OperandType.CONST →
      ¬((instr.binOp = BinOp.DIV ∨ instr.binOp = BinOp.MOD) ∧ instr.op2.value = 0) →
      execBinOpValue vars instr = Except.ok ((foldInstr instr).op1.value))
    ∧ (instr.type = InstrType.UN_OP → instr.op1.type = OperandType.CONST →
      execUnOpValue vars instr = Except.ok ((foldInstr instr).op1.value)) := by
  constructor
  · intro ht h1 h2 hnz
    have g1 := getValue_const vars instr.op1 h1
    have g2 := getValue_const vars instr.op2 h2
    have hfold : foldInstr instr =
        { instr with
          type := InstrType.ASSIGN
          op1 := Operand.mkConst (foldBinValue instr.binOp instr.op1.value instr.op2.value) } := by
      simp [foldInstr, ht, Operand.isConst, h1, h2]
    rw [hfold]
    simp only [execBinOpValue, g1, g2]
    cases hb : instr.binOp
    case DIV =>
      have hv2 : instr.op2.value ≠ 0 := fun hz => hnz ⟨Or.inl hb, hz⟩
      simp [binOpResult, foldBinValue, Operand.mkConst, hv2]
    case MOD =>
      have hv2 : instr.op2.value ≠ 0 := fun hz => hnz ⟨Or.inr hb, hz⟩
      simp [binOpResult, foldBinValue, Operand.mkConst, hv2]
    all_goals simp [binOpResult, foldBinValue, Operand.mkConst]
  · intro ht h1
    have g1 := getValue_const vars instr.op1 h1
    have hfold : foldInstr instr =
        { instr with
          type := InstrType.ASSIGN
          op1 := Operand.mkConst (foldUnValue instr.unOp instr.op1.value) } := by
      simp [foldInstr, ht, Operand.isConst, h1]
    rw [hfold]
    cases hu : instr.unOp <;>
      simp [execUnOpValue, g1, unOpResult, foldUnValue, Operand.mkConst, hu]

/-- Instruction z = 5 / 0 with both operands constant. -/
def divZeroFoldInstr : Instruction :=
  Instruction.createBinOp (Operand.mkNamed "z" OperandType.VAR) BinOp.DIV
    (Operand.mkConst 5) (Operand.mkConst 0)

/-- C3 counterexample: for the constant-operand instruction z = 5 / 0 the
    interpreter raises a fatal division-by-zero error, so the value it would
    compute and store cannot equal the value (0) that folding assigns. -/
theorem C3_counterexample :
    ¬ (execBinOpValue [] divZeroFoldInstr =
        Except.ok ((foldInstr divZeroFoldInstr).op1.value)) := by
  decide

/-- Instruction t0 = 2 + 3 with both operands constant. -/
def addConstInstr : Instruction :=
  Instruction.createBinOp (Operand.mkNamed "t0" OperandType.TEMP) BinOp.ADD
    (Operand.mkConst 2) (Operand.mkConst 3)

/-- Witness for C3 at the concrete instruction t0 = 2 + 3. -/
theorem C3_witness :
    execBinOpValue [] addConstInstr = Except.ok ((foldInstr addConstInstr).op1.value) :=
  (C3_theorem addConstInstr []).1 rfl rfl rfl (by decide)

/-! ### Claim C4 -/

/-- C4: folding a DIV or MOD BinaryOp whose two operands are Constants with
    divisor value 0 rewrites the instruction into an Assign of the Constant 0
    (optimize is a total function, so it never fails), while executing a DIV
    or MOD whose runtime divisor evaluates to 0 makes the execute loop stop
    at once with the fatal division/modulo-by-zero error, i.e. execute
    returns failure. -/
theorem C4_theorem (instr : Instruction) (program : IRProgram) (st : InterpState)
    (fuel : Nat) (v1 : Int) :
    (instr.type = InstrType.BIN_OP → (instr.binOp = BinOp.DIV ∨ instr.binOp = BinOp.MOD) →
      instr.op1.type = OperandType.CONST → instr.op2.type = OperandType.CONST →
      instr.op2.value = 0 →
      foldInstr instr = { instr with type := InstrType.ASSIGN, op1 := Operand.mkConst 0 })
    ∧ (st.pc < (program.instructions.length : Int) →
       instrAt program st.pc = some instr →
       instr.type = InstrType.BIN_OP →
       getValue st.vars instr.op1 = Except.ok v1 →
       getValue st.vars instr.op2 = Except.ok 0 →
       ((instr.binOp = BinOp.DIV →
           run program (fuel + 1) st = RunResult.fail "Division by zero" st)
        ∧ (instr.binOp = BinOp.MOD →
           run program (fuel + 1) st = RunResult.fail "Modulo by zero" st))) := by
  constructor
  · intro ht hdm h1 h2 hz
    rcases hdm with h | h <;>
      simp [foldInstr, ht, Operand.isConst, h1, h2, h, hz, foldBinValue]
  · intro hlt hat ht hv1 hv2
    constructor
    · intro hd
      simp [run, hlt, hat, ht, executeBinOp, execBinOpValue, hv1, hv2, binOpResult, hd]
    · intro hm
      simp [run, hlt, hat, ht, executeBinOp, execBinOpValue, hv1, hv2, binOpResult, hm]

/-- Instruction z = 5 / d with a Variable divisor. -/
def divByVarInstr : Instruction :=
  Instruction.createBinOp (Operand.mkNamed "z" OperandType.VAR) BinOp.DIV
    (Operand.mkConst 5) (Operand.mkNamed "d" OperandType.VAR)

/-- Program int d = 0; int z = 5 / d reduced to its TAC division. -/
def divByVarProgram : IRProgram :=
  { instructions := [divByVarInstr], variableTypes := [("d", 0)] }

/-- Witness for C4: the fold conclusion at z = 5 / 0 and the runtime failure
    at z = 5 / d with d holding 0. -/
theorem C4_witness :
    foldInstr (Instruction.createBinOp (Operand.mkNamed "z" OperandType.VAR) BinOp.DIV
        (Operand.mkConst 5) (Operand.mkConst 0)) =
      { (Instruction.createBinOp (Operand.mkNamed "z" OperandType.VAR) BinOp.DIV
          (Operand.mkConst 5) (Operand.mkConst 0)) with
        type := InstrType.ASSIGN, op1 := Operand.mkConst 0 }
    ∧ run divByVarProgram 1 { vars := [("d", 0)], output := [], pc := 0 } =
        RunResult.fail "Division by zero" { vars := [("d", 0)], output := [], pc := 0 } :=
  ⟨(C4_theorem (Instruction.createBinOp (Operand.mkNamed "z" OperandType.VAR) BinOp.DIV
        (Operand.mkConst 5) (Operand.mkConst 0)) {} {} 0 0).1 rfl (Or.inl rfl) rfl rfl rfl,
   ((C4_theorem divByVarInstr divByVarProgram
        { vars := [("d", 0)], output := [], pc := 0 } 0 5).2
      (by decide) (by decide) rfl (by decide) (by decide)).1 rfl⟩

/-! ### Claim C5 -/

/-- Program return 0; goto L9 where no label L9 exists: the bad jump is
    never reached. -/
def deadJumpProgram : IRProgram :=
  { instructions := [Instruction.createReturn (Operand.mkConst 0),
                     Instruction.createGoto "L9"] }

/-- C5 counterexample: deadJumpProgram contains a Goto whose target names no
    Label (findLabel reports the miss), yet execute succeeds, because the
    code resolves labels lazily when a jump executes, not at execution
    start. -/
theorem C5_counterexample :
    findLabel deadJumpProgram "L9" = Except.error "Label not found: L9"
    ∧ execute {} deadJumpProgram 5 =
        RunResult.done { vars := [], output := [], pc := 0 } := by
  decide

/-- C5 (amended): an unresolvable jump target is a fatal label-not-found
    error raised when the jump instruction itself executes (a Goto, or an
    IfGoto whose condition value is 0), aborting execution with failure; a
    bad jump that is never executed causes no error (see the
    counterexample). -/
theorem C5_theorem (program : IRProgram) (st : InterpState) (instr : Instruction)
    (fuel : Nat) (e : String) :
    st.pc < (program.instructions.length : Int) →
    instrAt program st.pc = some instr →
    findLabel program instr.label = Except.error e →
    ((instr.type = InstrType.GOTO → run program (fuel + 1) st = RunResult.fail e st)
     ∧ (instr.type = InstrType.IF_GOTO → getValue st.vars instr.op1 = Except.ok 0 →
        run program (fuel + 1) st = RunResult.fail e st)) := by
  intro hlt hat hfl
  constructor
  · intro ht
    simp [run, hlt, hat, ht, hfl]
  · intro ht hc
    simp [run, hlt, hat, ht, hc, hfl]

/-- Program whose first instruction is goto LX with no label LX. -/
def badGotoProgram : IRProgram :=
  { instructions := [Instruction.createGoto "LX"] }

/-- Witness for C5 at the concrete program goto LX. -/
theorem C5_witness :
    run badGotoProgram 1 { vars := [], output := [], pc := 0 } =
      RunResult.fail "Label not found: LX" { vars := [], output := [], pc := 0 } :=
  (C5_theorem badGotoProgram { vars := [], output := [], pc := 0 }
      (Instruction.createGoto "LX") 0 "Label not found: LX"
      (by decide) (by decide) (by decide)).1 rfl

/-! ### Claim C6 -/

/-- C6: dead-code elimination never removes an instruction whose destination
    name occurs as the source operand of some Print, Return or IfGoto of the
    same program: that name is in usedVars, so the instruction is not dead
    and survives the filter. -/
theorem C6_theorem (p : IRProgram) (instr j : Instruction)
    (hi : instr ∈ p.instructions) (hj : j ∈ p.instructions)
    (hty : j.type = InstrType.PRINT ∨ j.type = InstrType.RETURN ∨ j.type = InstrType.IF_GOTO)
    (hname : j.op1.str = instr.result.str) :
    instr ∈ (eliminateDeadCode p).instructions := by
  have hused : memStr (usedVars p.instructions) instr.result.str = true := by
    apply memStr_usedVars_of_mem p.instructions j instr.result.str hj
    rcases hty with h | h | h <;> simp [usesOf, h, hname]
  have hdead : isDead (usedVars p.instructions) (assignedVars p.instructions) instr = false := by
    simp [isDead, hused]
  simp [eliminateDeadCode, List.mem_filter, hi, hdead]

/-- Program t0 = 1 + 2; print(t0): the BinaryOp feeds a Print. -/
def liveTempProgram : IRProgram :=
  { instructions := [
      Instruction.createBinOp (Operand.mkNamed "t0" OperandType.TEMP) BinOp.ADD
        (Operand.mkConst 1) (Operand.mkConst 2),
      Instruction.createPrint (Operand.mkNamed "t0" OperandType.TEMP) ] }

/-- Witness for C6: the BinaryOp writing t0 survives dead-code elimination
    because t0 feeds the Print. -/
theorem C6_witness :
    Instruction.createBinOp (Operand.mkNamed "t0" OperandType.TEMP) BinOp.ADD
        (Operand.mkConst 1) (Operand.mkConst 2)
      ∈ (eliminateDeadCode liveTempProgram).instructions :=
  C6_theorem liveTempProgram
    (Instruction.createBinOp (Operand.mkNamed "t0" OperandType.TEMP) BinOp.ADD
      (Operand.mkConst 1) (Operand.mkConst 2))
    (Instruction.createPrint (Operand.mkNamed "t0" OperandType.TEMP))
    (by decide) (by decide) (Or.inl rfl) rfl

/-! ### Claim C7 -/

/-- C7: analyze accepts exactly when the accumulated error list is empty; a
    declaration of a name already present appends the fatal redeclaration
    error and changes nothing else (that statement's analysis stops: the
    initializer is not visited and no symbol is inserted); and the statement
    walk threads through every sibling with no early abort, so errors
    accumulate. -/
theorem C7_theorem (p : Program) (st st2 : SemState) (varName dataType : String)
    (line : Int) (initializer : Option Expression) (ss1 ss2 : List Statement) :
    ((analyze st (some p)).1 = true ↔ (analyze st (some p)).2.errors = [])
    ∧ ((lookupSym st2.symbolTable varName).isSome = true →
       visitStatement (Statement.declS varName dataType line initializer) st2 =
         { st2 with errors := st2.errors ++
             ["Variable \x27" ++ varName ++ "\x27 already defined"] })
    ∧ (visitStatements (ss1 ++ ss2) st2 = visitStatements ss2 (visitStatements ss1 st2)) := by
  refine ⟨?_, ?_, ?_⟩
  · simp [analyze, List.isEmpty_iff]
  · intro h
    match hl : lookupSym st2.symbolTable varName with
    | some s => simp [visitStatement, hl, addError]
    | none => rw [hl] at h; simp at h
  · induction ss1 generalizing st2 with
    | nil => rfl
    | cons s rest ih =>
      simp only [List.cons_append, visitStatements]
      exact ih (visitStatement s st2)

/-- Program int x; int x; declaring x twice. -/
def dupDeclProgram : Program :=
  { statements := [
      Statement.declS "x" "int" 1 none,
      Statement.declS "x" "int" 2 none ] }

/-- Semantic state in which x is already declared. -/
def dupState : SemState :=
  { symbolTable := [("x", { name := "x", type := "int", definedLine := 1,
                            initialized := false })] }

/-- Witness for C7 at the program int x; int x and the state where x is
    already declared. -/
theorem C7_witness :
    ((analyze {} (some dupDeclProgram)).1 = true ↔
      (analyze {} (some dupDeclProgram)).2.errors = [])
    ∧ visitStatement (Statement.declS "x" "int" 2 none) dupState =
        { dupState with errors := dupState.errors ++
            ["Variable \x27" ++ "x" ++ "\x27 already defined"] }
    ∧ visitStatements ([Statement.declS "y" "int" 3 none] ++ [Statement.printS (Expression.varE "y")]) dupState =
        visitStatements [Statement.printS (Expression.varE "y")]
          (visitStatements [Statement.declS "y" "int" 3 none] dupState) :=
  ⟨(C7_theorem dupDeclProgram {} dupState "x" "int" 2 none
      [Statement.declS "y" "int" 3 none] [Statement.printS (Expression.varE "y")]).1,
   (C7_theorem dupDeclProgram {} dupState "x" "int" 2 none
      [Statement.declS "y" "int" 3 none] [Statement.printS (Expression.varE "y")]).2.1 (by decide),
   (C7_theorem dupDeclProgram {} dupState "x" "int" 2 none
      [Statement.declS "y" "int" 3 none] [Statement.printS (Expression.varE "y")]).2.2⟩

/-! ### Claim C8 -/

/-- C8: optimize touches only ASSIGN/BIN_OP/UN_OP instructions: the
    subsequence of all other instructions (Label, Goto, IfGoto, Print,
    Return, Call, Nop — and the unused CONST tag) is preserved identically
    and in order, and the variable-type table is unchanged. -/
theorem C8_theorem (p : IRProgram) :
    ((optimize p).instructions.filter notABU = p.instructions.filter notABU)
    ∧ (optimize p).variableTypes = p.variableTypes := by
  constructor
  · show ((eliminateDeadCode (foldConstants p)).instructions.filter notABU = _)
    simp only [eliminateDeadCode, foldConstants]
    rw [filter_notABU_filter_notDead, filter_notABU_map_foldInstr]
  · rfl

/-! ### Claim C9 -/

/-- C9: execute clears the variable store, the output log and the program
    counter on entry, so its result does not depend on the member state left
    by any earlier call: two calls on the same program (and fuel) are
    identical. -/
theorem C9_theorem (st1 st2 : InterpState) (p : IRProgram) (fuel : Nat) :
    execute st1 p fuel = execute st2 p fuel := rfl

/-! ### Claim C10 -/

/-- C10: analyze on a null program returns false immediately while the error
    and warning lists of the fresh analyzer stay empty: the program is
    rejected without any diagnostic. -/
theorem C10_theorem :
    analyze {} none = (false, ({} : SemState))
    ∧ ({} : SemState).errors = [] ∧ ({} : SemState).warnings = [] :=
  ⟨rfl, rfl, rfl⟩

end Lab3
